import Mathlib

/-!
Verification of the concurrent speaker scoring-and-ranking engine of the
conference-scraper repository, as a shallow embedding in Lean 4.

The embedding covers:
* a model of Python `json.loads` (strict JSON parsing into a `JsonVal` tree);
* `OpenAIClient.generate_text` as a function of the provider-call outcome;
* `SpeakerMatcher.score_speaker` (per-item scoring with failure containment);
* `SpeakerMatcher.recommend_speakers` (fan-out, threshold filter, stable
  descending sort); `asyncio.gather` returns results in task order, so the
  fan-out is embedded as an index-ordered map over the catalog, with the
  outcome of the i-th provider call supplied by an oracle `Nat → ApiOutcome`;
* the fenced-block JSON extraction of `AnthropicClient.extract_structured_data`;
* the `/match` endpoint `match_speakers` of `backend.py`, including the
  pydantic validation of its response model.

Machine reals (Python floats) are modelled as `Rat`; Python dictionaries
produced by `json.loads` are modelled as association lists where lookup takes
the last binding of a key (CPython keeps the last duplicate key).
-/

namespace ConferenceScraper

/-! ### JSON values and a model of Python `json.loads` -/

/-- A JSON value as produced by Python `json.loads`: `null`, booleans, numbers
(modelled as rationals), strings, arrays and objects.  Objects keep their
members in textual order; lookup takes the last binding, as a Python dict
built by `json.loads` does. -/
inductive JsonVal where
  | null : JsonVal
  | bool (b : Bool) : JsonVal
  | num (q : Rat) : JsonVal
  | str (s : String) : JsonVal
  | arr (elems : List JsonVal) : JsonVal
  | obj (fields : List (String × JsonVal)) : JsonVal

/-- JSON whitespace accepted between tokens by `json.loads`. -/
def isJsonWs (c : Char) : Bool :=
  c == ' ' || c == '\t' || c == '\n' || c == '\r'

/-- Drop leading JSON whitespace. -/
def skipWs : List Char → List Char
  | [] => []
  | c :: cs => if isJsonWs c then skipWs cs else c :: cs

/-- Value of a hexadecimal digit, for `\uXXXX` string escapes. -/
def hexVal (c : Char) : Option Nat :=
  if '0' ≤ c ∧ c ≤ '9' then some (c.toNat - '0'.toNat)
  else if 'a' ≤ c ∧ c ≤ 'f' then some (c.toNat - 'a'.toNat + 10)
  else if 'A' ≤ c ∧ c ≤ 'F' then some (c.toNat - 'A'.toNat + 10)
  else none

/-- Single-character JSON string escapes. -/
def escChar (c : Char) : Option Char :=
  if c = '"' then some '"'
  else if c = '\\' then some '\\'
  else if c = '/' then some '/'
  else if c = 'b' then some (Char.ofNat 8)
  else if c = 'f' then some (Char.ofNat 12)
  else if c = 'n' then some '\n'
  else if c = 'r' then some '\r'
  else if c = 't' then some '\t'
  else none

/-- Parse the body of a JSON string (the opening quote already consumed),
returning the characters and the remaining input. -/
def parseStrChars : Nat → List Char → Option (List Char × List Char)
  | 0, _ => none
  | _, [] => none
  | fuel + 1, c :: rest =>
    if c = '"' then some ([], rest)
    else if c = '\\' then
      match rest with
      | [] => none
      | e :: rest2 =>
        if e = 'u' then
          match rest2 with
          | h1 :: h2 :: h3 :: h4 :: rest3 =>
            match hexVal h1, hexVal h2, hexVal h3, hexVal h4 with
            | some a, some b, some c2, some d =>
              match parseStrChars fuel rest3 with
              | some (s, r) => some (Char.ofNat (((a * 16 + b) * 16 + c2) * 16 + d) :: s, r)
              | none => none
            | _, _, _, _ => none
          | _ => none
        else
          match escChar e with
          | some ec =>
            match parseStrChars fuel rest2 with
            | some (s, r) => some (ec :: s, r)
            | none => none
          | none => none
    else
      match parseStrChars fuel rest with
      | some (s, r) => some (c :: s, r)
      | none => none

/-- Take a maximal run of decimal digits. -/
def takeDigits : List Char → List Char × List Char
  | [] => ([], [])
  | c :: cs =>
    if c.isDigit then
      let p := takeDigits cs
      (c :: p.1, p.2)
    else ([], c :: cs)

/-- Numeric value of a digit run. -/
def digitsToNat (ds : List Char) : Nat :=
  ds.foldl (fun n c => 10 * n + (c.toNat - '0'.toNat)) 0

/-- Parse an optional fractional part `.dddd`, returning its digits. -/
def parseFracDigits (cs : List Char) : Option (List Char × List Char) :=
  match cs with
  | '.' :: r =>
    match takeDigits r with
    | ([], _) => none
    | (ds, rest) => some (ds, rest)
  | _ => some ([], cs)

/-- Parse an optional exponent part `e±ddd`. -/
def parseExpPart (cs : List Char) : Option (Int × List Char) :=
  match cs with
  | c :: r =>
    if c = 'e' ∨ c = 'E' then
      let p : Int × List Char :=
        match r with
        | '+' :: rr => (1, rr)
        | '-' :: rr => (-1, rr)
        | _ => (1, r)
      match takeDigits p.2 with
      | ([], _) => none
      | (ds, rest) => some (p.1 * (digitsToNat ds : Int), rest)
    else some (0, c :: r)
  | [] => some (0, [])

/-- Parse a JSON number (with JSON's no-leading-zero rule). -/
def parseNumber (cs : List Char) : Option (Rat × List Char) :=
  let p :=
    match cs with
    | '-' :: r => (true, r)
    | _ => (false, cs)
  match takeDigits p.2 with
  | ([], _) => none
  | (ds, rest1) =>
    if 2 ≤ ds.length ∧ ds.headD '0' = '0' then none
    else
      match parseFracDigits rest1 with
      | none => none
      | some (fds, rest2) =>
        match parseExpPart rest2 with
        | none => none
        | some (ex, rest3) =>
          let mag : Rat :=
            if fds = [] ∧ ex = 0 then (digitsToNat ds : Nat)
            else
              ((digitsToNat ds : Rat) + (digitsToNat fds : Rat) / (10 : Rat) ^ fds.length) *
                (10 : Rat) ^ ex
          some (if p.1 then -mag else mag, rest3)

mutual

/-- Parse one JSON value. Fuel-based recursion; `jsonLoads` supplies enough
fuel for any input it is called on. -/
def parseVal : Nat → List Char → Option (JsonVal × List Char)
  | 0, _ => none
  | fuel + 1, cs =>
    match cs with
    | [] => none
    | 'n' :: 'u' :: 'l' :: 'l' :: rest => some (.null, rest)
    | 't' :: 'r' :: 'u' :: 'e' :: rest => some (.bool true, rest)
    | 'f' :: 'a' :: 'l' :: 's' :: 'e' :: rest => some (.bool false, rest)
    | '"' :: rest =>
      match parseStrChars (fuel + 1) rest with
      | some (s, r) => some (.str (String.mk s), r)
      | none => none
    | '{' :: rest =>
      match skipWs rest with
      | '}' :: r2 => some (.obj [], r2)
      | rest1 =>
        match parseFields fuel rest1 with
        | some (fs, r2) => some (.obj fs, r2)
        | none => none
    | '[' :: rest =>
      match skipWs rest with
      | ']' :: r2 => some (.arr [], r2)
      | rest1 =>
        match parseElems fuel rest1 with
        | some (es, r2) => some (.arr es, r2)
        | none => none
    | _ =>
      match parseNumber cs with
      | some (q, r) => some (.num q, r)
      | none => none

/-- Parse the members of a JSON object, up to and including the closing brace. -/
def parseFields : Nat → List Char → Option (List (String × JsonVal) × List Char)
  | 0, _ => none
  | fuel + 1, cs =>
    match cs with
    | '"' :: rest =>
      match parseStrChars (fuel + 1) rest with
      | none => none
      | some (key, r1) =>
        match skipWs r1 with
        | ':' :: r2 =>
          match parseVal fuel (skipWs r2) with
          | none => none
          | some (v, r3) =>
            match skipWs r3 with
            | ',' :: r4 =>
              match parseFields fuel (skipWs r4) with
              | some (fs, r5) => some ((String.mk key, v) :: fs, r5)
              | none => none
            | '}' :: r4 => some ([(String.mk key, v)], r4)
            | _ => none
        | _ => none
    | _ => none

/-- Parse the elements of a JSON array, up to and including the closing bracket. -/
def parseElems : Nat → List Char → Option (List JsonVal × List Char)
  | 0, _ => none
  | fuel + 1, cs =>
    match parseVal fuel cs with
    | none => none
    | some (v, r1) =>
      match skipWs r1 with
      | ',' :: r2 =>
        match parseElems fuel (skipWs r2) with
        | some (es, r3) => some (v :: es, r3)
        | none => none
      | ']' :: r2 => some ([v], r2)
      | _ => none

end

/-- Model of Python `json.loads`: strict JSON parsing of the whole string,
allowing surrounding whitespace only.  On failure the error string stands for
the `JSONDecodeError` message. -/
def jsonLoads (s : String) : Except String JsonVal :=
  match parseVal (2 * s.length + 8) (skipWs s.data) with
  | none => .error "Expecting value"
  | some (v, rest) => if skipWs rest = [] then .ok v else .error "Extra data"

/-- Model of Python `dict.get` on an object produced by `json.loads`:
the last binding of a duplicated key wins. -/
def objGet (key : String) (fields : List (String × JsonVal)) : Option JsonVal :=
  (fields.reverse.find? fun f => f.1 == key).map (·.2)

/-- Drop leading whitespace characters. -/
def dropLeadingWs : List Char → List Char
  | [] => []
  | c :: cs => if c.isWhitespace then dropLeadingWs cs else c :: cs

/-- Model of Python `str.strip()`: remove leading and trailing whitespace. -/
def pyStrip (s : String) : String :=
  String.mk ((dropLeadingWs (dropLeadingWs s.data).reverse).reverse)

/-- Model of Python `str.split(sep)` for a non-empty separator, on character
lists: scan left to right, cutting at each occurrence of the separator. -/
def splitOnSub (sep : List Char) : Nat → List Char → List (List Char)
  | _, [] => [[]]
  | 0, cs => [cs]
  | fuel + 1, c :: rest =>
    if sep <+: c :: rest then
      [] :: splitOnSub sep fuel ((c :: rest).drop sep.length)
    else
      match splitOnSub sep fuel rest with
      | [] => [[c]]
      | p :: ps => (c :: p) :: ps

/-- Model of Python `str.split(sep)` on strings (non-empty separator). -/
def pySplit (s sep : String) : List String :=
  (splitOnSub sep.data s.data.length s.data).map String.mk

/-! ### Data model: speaker records and scored matches -/

/-- A speaker record from the catalog `data/speakers.json`, with the four
fields the scoring pipeline reads (`speaker.get(...)` in the source). -/
structure Speaker where
  name : String
  title : String
  organization : String
  bio : String
deriving DecidableEq

/-- The per-speaker dictionary returned by `SpeakerMatcher.score_speaker`:
the four speaker fields plus `score` and `reasoning`.  In Python the two
computed entries hold whatever JSON values `result.get` yields (with the
defaults `0` and `""`), so they are modelled as `JsonVal`. -/
structure ScoredMatch where
  name : String
  title : String
  organization : String
  bio : String
  score : JsonVal
  reasoning : JsonVal

/-! ### The scoring client and the Item Scorer -/

/-- Outcome of one underlying provider call inside
`OpenAIClient.generate_text`: the API either raises an exception with some
message, or returns a reply text. -/
inductive ApiOutcome where
  | raise (msg : String) : ApiOutcome
  | reply (text : String) : ApiOutcome

/-- Model of `OpenAIClient.generate_text`: wraps a provider exception into
`Exception(f"Error generating text: {e}")`, and strips the returned text. -/
def generate_text : ApiOutcome → Except String String
  | .raise msg => .error ("Error generating text: " ++ msg)
  | .reply t => .ok (pyStrip t)

/-- The `except` branch of `score_speaker`: the speaker fields are copied
unchanged, `score` is `0` and `reasoning` is `f"Error: {e}"`. -/
def errorMatch (speaker : Speaker) (msg : String) : ScoredMatch :=
  { name := speaker.name, title := speaker.title,
    organization := speaker.organization, bio := speaker.bio,
    score := .num 0, reasoning := .str ("Error: " ++ msg) }

/-- Message standing for the `AttributeError` that `result.get` raises when
`json.loads` returned a non-dict value (a list, string, number, ...). -/
def attrGetError : String := "object has no attribute get"

/-- Model of `SpeakerMatcher.score_speaker` for one speaker, given the outcome
of its provider call.  The prompt built from `user_bio` and the speaker only
influences the reply through the oracle, so it is not materialised; note the
prompt truncates the biography to 800 characters but the returned dictionary
carries the full `speaker.get('bio')`.  Every failure inside the `try` block
(provider exception, `json.loads` failure, `result.get` on a non-dict) lands
in the `except` branch, so this function is total. -/
def score_speaker (user_bio : String) (speaker : Speaker) (o : ApiOutcome) : ScoredMatch :=
  match generate_text o with
  | .error e => errorMatch speaker e
  | .ok response =>
    match jsonLoads response with
    | .error e => errorMatch speaker e
    | .ok (.obj fields) =>
      { name := speaker.name, title := speaker.title,
        organization := speaker.organization, bio := speaker.bio,
        score := (objGet "score" fields).getD (.num 0),
        reasoning := (objGet "reasoning" fields).getD (.str "") }
    | .ok _ => errorMatch speaker attrGetError

/-! ### Fan-out, filter and sort (`recommend_speakers`) -/

/-- Model of the fan-out
`await asyncio.gather(*[score_speaker(user_bio, s) for s in speakers])`:
`asyncio.gather` resolves to the task results in task (catalog) order, no
matter in which order the calls complete, so the scored list is the catalog
mapped through `score_speaker` with the i-th call outcome `oracle i`. -/
def scoreAll (user_bio : String) : List Speaker → (Nat → ApiOutcome) → List ScoredMatch
  | [], _ => []
  | sp :: rest, oracle =>
    score_speaker user_bio sp (oracle 0) :: scoreAll user_bio rest (fun i => oracle (i + 1))

/-- Message standing for the `TypeError` Python raises when `>=` compares a
non-numeric JSON value with a float. -/
def cmpTypeError : String := "TypeError: comparison not supported between reply score and float"

/-- Python evaluation of `s['score'] >= threshold`: JSON numbers compare
numerically, JSON booleans compare as the integers 0 and 1, and every other
value raises a `TypeError`. -/
def pyGE (v : JsonVal) (t : Rat) : Except String Bool :=
  match v with
  | .num q => .ok (decide (q ≥ t))
  | .bool b => .ok (decide ((if b then (1 : Rat) else 0) ≥ t))
  | _ => .error cmpTypeError

/-- Model of the comprehension
`[s for s in scored_speakers if s['score'] >= threshold]`, evaluated left to
right; the first `TypeError` aborts it. -/
def pyFilterGE (threshold : Rat) : List ScoredMatch → Except String (List ScoredMatch)
  | [] => .ok []
  | s :: rest =>
    match pyGE s.score threshold with
    | .error e => .error e
    | .ok b =>
      match pyFilterGE threshold rest with
      | .error e => .error e
      | .ok tail => .ok (if b then s :: tail else tail)

/-- Sort key of `matches.sort(key=lambda x: x['score'], reverse=True)` as a
rational: numbers are themselves, booleans are 0/1.  Entries reaching the
sort passed the `>=` filter, so their scores are numbers or booleans and
Python's comparison of two such keys coincides with this numeric key. -/
def scoreKey (v : JsonVal) : Rat :=
  match v with
  | .num q => q
  | .bool b => if b then 1 else 0
  | _ => 0

/-- Descending order on scored matches: `a` may come before `b` when the key
of `b` is at most the key of `a`. -/
def scoreDescLE (a b : ScoredMatch) : Prop := scoreKey b.score ≤ scoreKey a.score

instance : DecidableRel scoreDescLE := fun a b =>
  inferInstanceAs (Decidable (scoreKey b.score ≤ scoreKey a.score))

instance : IsTotal ScoredMatch scoreDescLE :=
  ⟨fun a b => (le_total (scoreKey b.score) (scoreKey a.score)).imp id id⟩

instance : IsTrans ScoredMatch scoreDescLE :=
  ⟨fun _ _ _ h1 h2 => le_trans h2 h1⟩

/-- Model of `matches.sort(key=lambda x: x['score'], reverse=True)`: CPython's
sort is stable, and with `reverse=True` ties still keep their original
relative order, which is exactly insertion sort with the non-strict
descending relation `scoreDescLE`. -/
def sortByScoreDesc (l : List ScoredMatch) : List ScoredMatch :=
  l.insertionSort scoreDescLE

/-- The Ranker/Filter stage of `recommend_speakers` (its last three source
statements): threshold filter, then stable descending sort. -/
def rank (threshold : Rat) (scored : List ScoredMatch) : Except String (List ScoredMatch) :=
  match pyFilterGE threshold scored with
  | .error e => .error e
  | .ok ms => .ok (sortByScoreDesc ms)

/-- Model of `SpeakerMatcher.recommend_speakers`: score all speakers via the
fan-out, then filter by threshold and sort by score descending. -/
def recommend_speakers (user_bio : String) (speakers : List Speaker)
    (oracle : Nat → ApiOutcome) (threshold : Rat) : Except String (List ScoredMatch) :=
  rank threshold (scoreAll user_bio speakers oracle)

/-! ### Fenced-block JSON extraction (`AnthropicClient.extract_structured_data`) -/

/-- Python's substring containment `sub in s`. -/
def strContains (s sub : String) : Bool := decide (sub.data <:+: s.data)

/-- The three-tier JSON extraction of `AnthropicClient.extract_structured_data`
(`classify` and `extract_entities` share it): take the interior of a
```` ```json ````-tagged fenced block if present, else of any fenced block,
else the text verbatim. -/
def extract_json (result : String) : String :=
  if strContains result "```json" then
    pyStrip (((pySplit ((pySplit result "```json").getD 1 "") "```").getD 0 ""))
  else if strContains result "```" then
    pyStrip (((pySplit ((pySplit result "```").getD 1 "") "```").getD 0 ""))
  else result

/-- Model of the reply handling of `AnthropicClient.extract_structured_data`:
apply the three-tier extraction, then strict JSON parsing; any failure is
wrapped into `Exception(f"Error extracting structured data: {e}")`. -/
def extract_structured_data (o : ApiOutcome) : Except String JsonVal :=
  match o with
  | .raise msg => .error ("Error extracting structured data: " ++ msg)
  | .reply text =>
    match jsonLoads (extract_json text) with
    | .ok v => .ok v
    | .error e => .error ("Error extracting structured data: " ++ e)

/-! ### The `/match` endpoint (`backend.py`) -/

/-- The request body of `POST /match`. -/
structure MatchRequest where
  user_bio : String
  threshold : Rat

/-- The response body of `POST /match`. -/
structure MatchResponse where
  «matches» : List ScoredMatch
  total_speakers : Nat
  matches_found : Nat

/-- An `HTTPException(status_code, detail)` raised by the endpoint. -/
inductive BackendError where
  | httpError (status : Nat) (detail : String) : BackendError

/-- A value pydantic accepts for the `score: float` field of `SpeakerMatch`,
restricted to the value shapes reachable past the numeric threshold filter:
a JSON number.  (A boolean is rejected, following current pydantic lax
rules.) -/
def pydanticFloatOk : JsonVal → Bool
  | .num _ => true
  | _ => false

/-- A value pydantic accepts for the `reasoning: str` field of
`SpeakerMatch`: a JSON string.  A dict, list or null is not a valid `str` in
either pydantic version. -/
def pydanticStrOk : JsonVal → Bool
  | .str _ => true
  | _ => false

/-- Pydantic validation of one `SpeakerMatch` entry of the response model. -/
def speakerMatchOk (m : ScoredMatch) : Bool :=
  pydanticFloatOk m.score && pydanticStrOk m.reasoning

/-- Message standing for the pydantic `ValidationError` raised while building
`MatchResponse(matches=...)` from an entry with an invalid field. -/
def pydanticValidationError : String := "validation error for MatchResponse"

/-- Model of `match_speakers` in `backend.py`: reject when the catalog is
empty (HTTP 500), reject a missing or too-short bio (HTTP 400), otherwise run
`recommend_speakers` and build `MatchResponse(matches=...)`, whose pydantic
validation checks every retained match (`score: float`, `reasoning: str`);
any exception escaping the `try` block — a `TypeError` from the threshold
comparison as well as the pydantic `ValidationError` — is converted to HTTP
500.  The construction `SpeakerMatcher()` is assumed to succeed (its failure,
a missing API key, is caught by the same handler before any scoring). -/
def match_speakers (speakers_data : List Speaker) (oracle : Nat → ApiOutcome)
    (req : MatchRequest) : Except BackendError MatchResponse :=
  match speakers_data with
  | [] => .error (.httpError 500 "Speaker data not loaded")
  | _ =>
    if req.user_bio = "" ∨ (pyStrip req.user_bio).length < 10 then
      .error (.httpError 400 "User bio must be at least 10 characters")
    else
      match recommend_speakers req.user_bio speakers_data oracle req.threshold with
      | .ok ms =>
        if ms.all speakerMatchOk then
          .ok { «matches» := ms, total_speakers := speakers_data.length,
                matches_found := ms.length }
        else
          .error (.httpError 500 ("Error matching speakers: " ++ pydanticValidationError))
      | .error e => .error (.httpError 500 ("Error matching speakers: " ++ e))

/-! ### Auxiliary notions used by the theorems -/

/-- A JSON value whose comparison with a float threshold succeeds in Python:
a number or a boolean. -/
def isNumLike : JsonVal → Bool
  | .num _ => true
  | .bool _ => true
  | _ => false

/-- The pure value of the Ranker/Filter stage on a batch whose scores are all
comparable: filter by `threshold ≤ scoreKey`, then stable descending sort. -/
def rankedPure (threshold : Rat) (scored : List ScoredMatch) : List ScoredMatch :=
  sortByScoreDesc (scored.filter fun s => decide (threshold ≤ scoreKey s.score))

/-! ### Sample data for concrete witnesses -/

/-- Sample speaker record. -/
def spA : Speaker :=
  ⟨"Ada Lovelace", "Chief Scientist", "Analytical Engines Ltd",
   "Pioneer of general-purpose computation."⟩

/-- Sample speaker record. -/
def spB : Speaker :=
  ⟨"Grace Hopper", "Rear Admiral", "United States Navy",
   "Creator of the first compiler."⟩

/-- Sample speaker record. -/
def spC : Speaker :=
  ⟨"Alan Turing", "Researcher", "National Physical Laboratory",
   "Founder of theoretical computer science."⟩

/-- Sample user bio (well over the 10-character minimum). -/
def bio0 : String := "I build analytical engines for enterprise customers"

/-- A well-formed model reply scoring 7. -/
def goodReply : String := "\x7b\"score\": 7, \"reasoning\": \"strong overlap\"\x7d"

/-- A well-formed model reply scoring 9. -/
def reply9 : String := "\x7b\"score\": 9, \"reasoning\": \"excellent fit\"\x7d"

/-- A reply that is valid JSON but carries a non-numeric score. -/
def badTypeReply : String := "\x7b\"score\": \"high\", \"reasoning\": \"great\"\x7d"

/-- A reply whose score is numeric but whose reasoning is a JSON object: the
item scores fine and passes the filter, then fails response validation. -/
def dictReasoningReply : String := "\x7b\"score\": 7, \"reasoning\": \x7b\x7d\x7d"

/-- A valid JSON object wrapped in a ```` ```json ````-tagged fenced block with
surrounding prose. -/
def fencedReply : String :=
  "Here is the result:\n```json\n\x7b\"score\": 7, \"reasoning\": \"fits\"\x7d\n```"

/-- A valid JSON object wrapped in an untagged fenced block. -/
def untaggedFencedReply : String :=
  "```\n\x7b\"score\": 5, \"reasoning\": \"ok\"\x7d\n```"

/-! ### Helper lemmas -/

/-- Both branches of `score_speaker` copy the four speaker fields unchanged. -/
theorem score_speaker_fields (user_bio : String) (sp : Speaker) (o : ApiOutcome) :
    (score_speaker user_bio sp o).name = sp.name ∧
    (score_speaker user_bio sp o).title = sp.title ∧
    (score_speaker user_bio sp o).organization = sp.organization ∧
    (score_speaker user_bio sp o).bio = sp.bio := by
  cases o with
  | raise m => exact ⟨rfl, rfl, rfl, rfl⟩
  | reply t =>
    cases h : jsonLoads (pyStrip t) with
    | error e => simp [score_speaker, generate_text, h, errorMatch]
    | ok v =>
      cases v <;> simp [score_speaker, generate_text, h, errorMatch]

/-- The fan-out returns one result per catalog entry. -/
theorem scoreAll_length (user_bio : String) (speakers : List Speaker)
    (oracle : Nat → ApiOutcome) :
    (scoreAll user_bio speakers oracle).length = speakers.length := by
  induction speakers generalizing oracle with
  | nil => rfl
  | cons sp rest ih => simp [scoreAll, ih]

/-- The i-th fan-out result is the i-th speaker scored under the i-th call
outcome. -/
theorem scoreAll_get? (user_bio : String) (speakers : List Speaker)
    (oracle : Nat → ApiOutcome) (i : Nat) (sp : Speaker)
    (h : speakers[i]? = some sp) :
    (scoreAll user_bio speakers oracle)[i]? =
      some (score_speaker user_bio sp (oracle i)) := by
  induction speakers generalizing oracle i with
  | nil => simp at h
  | cons a rest ih =>
    cases i with
    | zero =>
      simp only [List.getElem?_cons_zero, Option.some.injEq] at h
      subst h
      simp [scoreAll]
    | succ n =>
      simp only [List.getElem?_cons_succ] at h
      simpa [scoreAll] using ih (fun j => oracle (j + 1)) n h

/-- A string contains any of its append-suffixes. -/
theorem strContains_append_left (a b : String) : strContains (a ++ b) b = true := by
  apply decide_eq_true
  exact ⟨a.data, [], by simp⟩

/-- On the `raise` outcome, `score_speaker` lands in the error branch with the
wrapped provider message. -/
theorem score_speaker_raise (user_bio : String) (sp : Speaker) (m : String) :
    score_speaker user_bio sp (.raise m) =
      errorMatch sp ("Error generating text: " ++ m) := rfl

/-- On a reply that fails strict JSON parsing, `score_speaker` lands in the
error branch with the parse message. -/
theorem score_speaker_parse_error (user_bio : String) (sp : Speaker) (t e : String)
    (hparse : jsonLoads (pyStrip t) = .error e) :
    score_speaker user_bio sp (.reply t) = errorMatch sp e := by
  simp [score_speaker, generate_text, hparse]

/-- On a reply that parses to a JSON object, `score_speaker` takes the success
branch with the `dict.get` defaults. -/
theorem score_speaker_obj (user_bio : String) (sp : Speaker) (t : String)
    (fields : List (String × JsonVal)) (hparse : jsonLoads (pyStrip t) = .ok (.obj fields)) :
    score_speaker user_bio sp (.reply t) =
      { name := sp.name, title := sp.title, organization := sp.organization,
        bio := sp.bio, score := (objGet "score" fields).getD (.num 0),
        reasoning := (objGet "reasoning" fields).getD (.str "") } := by
  simp [score_speaker, generate_text, hparse]

/-! ### C1: failure containment in `score_speaker` -/

/-- C1.  Failure containment: whether the provider call raises or the reply
fails strict JSON parsing, `score_speaker` still returns a `ScoredMatch` whose
score is 0 and whose rationale is a string containing the failure reason; the
function is total, so the exception never propagates out and never aborts
the batch. -/
theorem failure_containment (user_bio : String) (sp : Speaker) (m t e : String)
    (hparse : jsonLoads (pyStrip t) = .error e) :
    ((score_speaker user_bio sp (.raise m)).score = .num 0 ∧
      ∃ r, (score_speaker user_bio sp (.raise m)).reasoning = .str r ∧
        strContains r m = true) ∧
    ((score_speaker user_bio sp (.reply t)).score = .num 0 ∧
      ∃ r, (score_speaker user_bio sp (.reply t)).reasoning = .str r ∧
        strContains r e = true) := by
  constructor
  · rw [score_speaker_raise]
    refine ⟨rfl, "Error: " ++ ("Error generating text: " ++ m), rfl, ?_⟩
    rw [← String.append_assoc]
    exact strContains_append_left _ _
  · rw [score_speaker_parse_error user_bio sp t e hparse]
    exact ⟨rfl, "Error: " ++ e, rfl, strContains_append_left _ _⟩

/-- Witness for C1 at a concrete provider failure and a concrete unparsable
reply. -/
theorem failure_containment_witness :
    ((score_speaker bio0 spA (.raise "connection reset")).score = .num 0 ∧
      ∃ r, (score_speaker bio0 spA (.raise "connection reset")).reasoning = .str r ∧
        strContains r "connection reset" = true) ∧
    ((score_speaker bio0 spA (.reply "oops")).score = .num 0 ∧
      ∃ r, (score_speaker bio0 spA (.reply "oops")).reasoning = .str r ∧
        strContains r "Expecting value" = true) :=
  failure_containment bio0 spA "connection reset" "oops" "Expecting value" rfl

/-! ### C2: batch completeness of the fan-out -/

/-- C2.  Batch completeness: for every catalog of N speakers, every query and
every mix of per-call provider successes and failures, the fan-out resolves to
exactly N scored results, the i-th being the i-th speaker's `score_speaker`
result, and `recommend_speakers` applies the threshold filter to exactly this
list. -/
theorem batch_completeness (user_bio : String) (speakers : List Speaker)
    (oracle : Nat → ApiOutcome) (threshold : Rat) :
    (scoreAll user_bio speakers oracle).length = speakers.length ∧
    (∀ i sp, speakers[i]? = some sp →
      (scoreAll user_bio speakers oracle)[i]? =
        some (score_speaker user_bio sp (oracle i))) ∧
    recommend_speakers user_bio speakers oracle threshold =
      rank threshold (scoreAll user_bio speakers oracle) :=
  ⟨scoreAll_length user_bio speakers oracle,
   fun i sp h => scoreAll_get? user_bio speakers oracle i sp h, rfl⟩

/-- Witness for C2 on a two-speaker catalog with one success and one provider
failure. -/
theorem batch_completeness_witness :
    (scoreAll bio0 [spA, spB]
      (fun i => if i = 0 then .reply reply9 else .raise "connection reset")).length = 2 ∧
    (scoreAll bio0 [spA, spB]
      (fun i => if i = 0 then .reply reply9 else .raise "connection reset"))[1]? =
      some (score_speaker bio0 spB (.raise "connection reset")) :=
  ⟨(batch_completeness bio0 [spA, spB] _ 6).1,
   (batch_completeness bio0 [spA, spB]
      (fun i => if i = 0 then .reply reply9 else .raise "connection reset") 6).2.1 1 spB rfl⟩

/-! ### C5: missing keys default instead of raising -/

/-- C5.  Missing-key defaults: when the stripped reply parses to a JSON
object, `score_speaker` takes the success branch (the speaker fields are
preserved, nothing is treated as an error); a missing `score` key yields score
0 and a missing `reasoning` key yields the empty rationale string. -/
theorem missing_key_defaults (user_bio : String) (sp : Speaker) (t : String)
    (fields : List (String × JsonVal))
    (hparse : jsonLoads (pyStrip t) = .ok (.obj fields)) :
    (score_speaker user_bio sp (.reply t)).name = sp.name ∧
    (score_speaker user_bio sp (.reply t)).bio = sp.bio ∧
    (objGet "score" fields = none → (score_speaker user_bio sp (.reply t)).score = .num 0) ∧
    (objGet "reasoning" fields = none →
      (score_speaker user_bio sp (.reply t)).reasoning = .str "") := by
  rw [score_speaker_obj user_bio sp t fields hparse]
  refine ⟨rfl, rfl, fun h => ?_, fun h => ?_⟩
  · simp [h]
  · simp [h]

/-- Witness for C5 at a structurally valid object lacking both keys. -/
theorem missing_key_defaults_witness :
    (score_speaker bio0 spA (.reply "\x7b\"other\": 1\x7d")).name = spA.name ∧
    (score_speaker bio0 spA (.reply "\x7b\"other\": 1\x7d")).bio = spA.bio ∧
    (objGet "score" [("other", .num 1)] = none →
      (score_speaker bio0 spA (.reply "\x7b\"other\": 1\x7d")).score = .num 0) ∧
    (objGet "reasoning" [("other", .num 1)] = none →
      (score_speaker bio0 spA (.reply "\x7b\"other\": 1\x7d")).reasoning = .str "") :=
  missing_key_defaults bio0 spA "\x7b\"other\": 1\x7d" [("other", .num 1)] rfl

/-! ### C10: speaker fields pass through unchanged -/

/-- C10.  Frame property: `score_speaker` copies the record's name, title,
organization and full biography unchanged in both its success and error
branches (only the prompt truncates the biography; the result does not), and
in the fan-out the i-th result carries the i-th catalog record's fields; the
embedding is purely functional, matching the source, which never assigns into
a speaker dictionary or the catalog list. -/
theorem speaker_field_preservation (user_bio : String) (sp : Speaker) (o : ApiOutcome)
    (speakers : List Speaker) (oracle : Nat → ApiOutcome) (i : Nat) (spi : Speaker)
    (h : speakers[i]? = some spi) :
    ((score_speaker user_bio sp o).name = sp.name ∧
      (score_speaker user_bio sp o).title = sp.title ∧
      (score_speaker user_bio sp o).organization = sp.organization ∧
      (score_speaker user_bio sp o).bio = sp.bio) ∧
    ∃ r, (scoreAll user_bio speakers oracle)[i]? = some r ∧
      r.name = spi.name ∧ r.title = spi.title ∧
      r.organization = spi.organization ∧ r.bio = spi.bio := by
  refine ⟨score_speaker_fields user_bio sp o, score_speaker user_bio spi (oracle i),
    scoreAll_get? user_bio speakers oracle i spi h, score_speaker_fields user_bio spi (oracle i)⟩

/-- Witness for C10 on a concrete catalog, at index 1, with a failing call. -/
theorem speaker_field_preservation_witness :
    ((score_speaker bio0 spA (.raise "down")).name = spA.name ∧
      (score_speaker bio0 spA (.raise "down")).title = spA.title ∧
      (score_speaker bio0 spA (.raise "down")).organization = spA.organization ∧
      (score_speaker bio0 spA (.raise "down")).bio = spA.bio) ∧
    ∃ r, (scoreAll bio0 [spA, spB] (fun _ => .raise "down"))[1]? = some r ∧
      r.name = spB.name ∧ r.title = spB.title ∧
      r.organization = spB.organization ∧ r.bio = spB.bio :=
  speaker_field_preservation bio0 spA (.raise "down") [spA, spB] (fun _ => .raise "down") 1 spB rfl

/-! ### C7: input validation at the `/match` boundary -/

/-- C7 counterexample.  The claim says the endpoint rejects any threshold
outside [0, 10] with a validation error; the code has no threshold check: a
request with threshold 11 (and a long enough bio) is served normally and
returns an empty, successful match set. -/
theorem threshold_not_validated :
    (10 : Rat) < 11 ∧
    match_speakers [spA] (fun _ => .reply goodReply) ⟨bio0, 11⟩ =
      .ok { «matches» := [], total_speakers := 1, matches_found := 0 } :=
  ⟨by norm_num, rfl⟩

/-- C7 amended.  With a loaded catalog, the endpoint rejects an empty bio —
and more generally any bio shorter than 10 characters after stripping — with
HTTP 400 before any scoring work (the result does not depend on the oracle);
the threshold is not validated at all (see the counterexample). -/
theorem validation_short_bio (speakers : List Speaker) (oracle : Nat → ApiOutcome)
    (req : MatchRequest) (hne : speakers ≠ [])
    (hbio : req.user_bio = "" ∨ (pyStrip req.user_bio).length < 10) :
    match_speakers speakers oracle req =
      .error (.httpError 400 "User bio must be at least 10 characters") := by
  cases speakers with
  | nil => exact absurd rfl hne
  | cons a rest => simp [match_speakers, hbio]

/-- Witness for C7 (amended) at the empty bio. -/
theorem validation_short_bio_witness :
    match_speakers [spA] (fun _ => .raise "down") ⟨"", 6⟩ =
      .error (.httpError 400 "User bio must be at least 10 characters") :=
  validation_short_bio [spA] (fun _ => .raise "down") ⟨"", 6⟩
    (List.cons_ne_nil spA []) (Or.inl rfl)

/-! ### C4: threshold monotonicity of the filter -/

/-- A successful `>=` comparison means the score is numeric (number or
boolean) and the answer is the numeric comparison with its key. -/
theorem pyGE_ok (v : JsonVal) (t : Rat) (b : Bool) (h : pyGE v t = .ok b) :
    isNumLike v = true ∧ b = decide (t ≤ scoreKey v) := by
  cases v with
  | num q =>
    refine ⟨rfl, ?_⟩
    have hb : b = decide (q ≥ t) := by
      simpa [pyGE] using h.symm
    simpa [ge_iff_le, scoreKey] using hb
  | bool c =>
    refine ⟨rfl, ?_⟩
    have hb : b = decide ((if c then (1 : Rat) else 0) ≥ t) := by
      simpa [pyGE] using h.symm
    simpa [ge_iff_le, scoreKey] using hb
  | null => simp [pyGE] at h
  | str s => simp [pyGE] at h
  | arr es => simp [pyGE] at h
  | obj fs => simp [pyGE] at h

/-- C4.  Threshold monotonicity: on the same scored batch, whenever the
threshold filter succeeds at both T1 and T2 with T1 < T2, everything passing
at T2 also passes at T1. -/
theorem threshold_monotonic (l : List ScoredMatch) (t1 t2 : Rat) (h12 : t1 < t2)
    (m1 m2 : List ScoredMatch) (h1 : pyFilterGE t1 l = .ok m1)
    (h2 : pyFilterGE t2 l = .ok m2) : m2 ⊆ m1 := by
  induction l generalizing m1 m2 with
  | nil =>
    simp only [pyFilterGE, Except.ok.injEq] at h1 h2
    subst h1; subst h2
    exact fun a ha => ha
  | cons s rest ih =>
    simp only [pyFilterGE] at h1 h2
    cases hg2 : pyGE s.score t2 with
    | error e => rw [hg2] at h2; exact absurd h2 (by simp)
    | ok b2 =>
    rw [hg2] at h2
    cases hg1 : pyGE s.score t1 with
    | error e =>
      obtain ⟨hnum, -⟩ := pyGE_ok _ _ _ hg2
      cases hv : s.score <;> rw [hv] at hg1 hnum <;> simp [pyGE, isNumLike] at hg1 hnum
    | ok b1 =>
    rw [hg1] at h1
    cases hr1 : pyFilterGE t1 rest with
    | error e => rw [hr1] at h1; exact absurd h1 (by simp)
    | ok tail1 =>
    rw [hr1] at h1
    cases hr2 : pyFilterGE t2 rest with
    | error e => rw [hr2] at h2; exact absurd h2 (by simp)
    | ok tail2 =>
    rw [hr2] at h2
    simp only [Except.ok.injEq] at h1 h2
    subst h1; subst h2
    have hsub := ih tail1 tail2 hr1 hr2
    obtain ⟨-, hb2⟩ := pyGE_ok _ _ _ hg2
    obtain ⟨-, hb1⟩ := pyGE_ok _ _ _ hg1
    by_cases hb : b2 = true
    · have hb1t : b1 = true := by
        subst hb1
        subst hb2
        have ht2 : t2 ≤ scoreKey s.score := of_decide_eq_true hb
        exact decide_eq_true (le_trans h12.le ht2)
      rw [hb, hb1t]
      exact List.cons_subset_cons s hsub
    · have hb2f : b2 = false := by simpa using hb
      rw [hb2f]
      cases b1 with
      | false => simpa using hsub
      | true => simpa using hsub.trans (List.subset_cons_self s tail1)

/-- Witness for C4 at a concrete batch and thresholds 3 < 4. -/
theorem threshold_monotonic_witness :
    [⟨"A", "t", "o", "b", JsonVal.num 9, JsonVal.str "r"⟩,
     (⟨"B", "t", "o", "b", JsonVal.num 4, JsonVal.str "r"⟩ : ScoredMatch)] ⊆
    [⟨"A", "t", "o", "b", JsonVal.num 9, JsonVal.str "r"⟩,
     ⟨"B", "t", "o", "b", JsonVal.num 4, JsonVal.str "r"⟩,
     ⟨"C", "t", "o", "b", JsonVal.num 3, JsonVal.str "r"⟩] :=
  threshold_monotonic
    [⟨"A", "t", "o", "b", .num 9, .str "r"⟩, ⟨"B", "t", "o", "b", .num 4, .str "r"⟩,
     ⟨"C", "t", "o", "b", .num 3, .str "r"⟩]
    3 4 (by norm_num) _ _ rfl rfl

/-! ### C3: filter + stable descending sort postcondition -/

/-- On a batch of numeric scores the comprehension filter succeeds and keeps
exactly the entries at or above the threshold. -/
theorem pyFilterGE_numLike (t : Rat) (l : List ScoredMatch)
    (h : ∀ s ∈ l, isNumLike s.score = true) :
    pyFilterGE t l = .ok (l.filter fun s => decide (t ≤ scoreKey s.score)) := by
  induction l with
  | nil => rfl
  | cons s rest ih =>
    have hs := h s (List.mem_cons_self s rest)
    have hrest := ih fun x hx => h x (List.mem_cons_of_mem s hx)
    have hge : pyGE s.score t = .ok (decide (t ≤ scoreKey s.score)) := by
      cases hv : s.score with
      | num q => simp [pyGE, scoreKey, ge_iff_le]
      | bool c => simp [pyGE, scoreKey, ge_iff_le]
      | null => rw [hv] at hs; simp [isNumLike] at hs
      | str s2 => rw [hv] at hs; simp [isNumLike] at hs
      | arr es => rw [hv] at hs; simp [isNumLike] at hs
      | obj fs => rw [hv] at hs; simp [isNumLike] at hs
    simp only [pyFilterGE, hge, hrest, List.filter_cons]

/-- On a batch of numeric scores the Ranker/Filter stage succeeds and computes
the pure filter-then-stable-sort value. -/
theorem rank_eq_rankedPure (t : Rat) (l : List ScoredMatch)
    (h : ∀ s ∈ l, isNumLike s.score = true) :
    rank t l = .ok (rankedPure t l) := by
  unfold rank rankedPure
  rw [pyFilterGE_numLike t l h]

/-- Stability of the descending sort, generalised: a filter whose predicate
pins the score key to one value commutes with the sort. -/
theorem sortByScoreDesc_filter_key (l : List ScoredMatch) (p : ScoredMatch → Bool) (v : Rat)
    (hp : ∀ s, p s = true → scoreKey s.score = v) :
    (sortByScoreDesc l).filter p = l.filter p := by
  have hmemv : ∀ s ∈ l.filter p, scoreKey s.score = v :=
    fun s hs => hp s (List.mem_filter.mp hs).2
  have hpw : (l.filter p).Pairwise scoreDescLE := by
    rw [List.pairwise_iff_forall_sublist]
    intro a b hab
    have ha := hmemv a (hab.subset (by simp))
    have hb := hmemv b (hab.subset (by simp))
    show scoreKey b.score ≤ scoreKey a.score
    rw [ha, hb]
  have hsub : List.Sublist (l.filter p) (sortByScoreDesc l) :=
    List.sublist_insertionSort hpw (List.filter_sublist l)
  have hidem : (l.filter p).filter p = l.filter p :=
    List.filter_eq_self.mpr fun a ha => (List.mem_filter.mp ha).2
  have hsub2 := hsub.filter p
  rw [hidem] at hsub2
  have hperm : ((sortByScoreDesc l).filter p).Perm (l.filter p) :=
    (List.perm_insertionSort scoreDescLE l).filter _
  exact (hsub2.eq_of_length hperm.length_eq.symm).symm

/-- Stability of the descending sort: the entries holding any fixed score key
come out of the sort exactly as they went in. -/
theorem sortByScoreDesc_filter_fiber (l : List ScoredMatch) (v : Rat) :
    (sortByScoreDesc l).filter (fun s => decide (scoreKey s.score = v)) =
      l.filter (fun s => decide (scoreKey s.score = v)) :=
  sortByScoreDesc_filter_key l _ v fun _ hs => of_decide_eq_true hs

/-- Two lists sorted by descending score key with identical score fibers are
identical. -/
theorem sorted_eq_of_fiber_eq (l1 : List ScoredMatch) :
    ∀ l2 : List ScoredMatch, l1.Sorted scoreDescLE → l2.Sorted scoreDescLE →
      (∀ v : Rat, l1.filter (fun s => decide (scoreKey s.score = v)) =
        l2.filter (fun s => decide (scoreKey s.score = v))) → l1 = l2 := by
  induction l1 with
  | nil =>
    intro l2 _ _ hf
    cases l2 with
    | nil => rfl
    | cons b t2 =>
      have h := hf (scoreKey b.score)
      rw [List.filter_cons] at h
      simp at h
  | cons a t1 ih =>
    intro l2 hs1 hs2 hf
    cases l2 with
    | nil =>
      have h := hf (scoreKey a.score)
      rw [List.filter_cons] at h
      simp at h
    | cons b t2 =>
      have hmem_a : a ∈ b :: t2 := by
        have h1 := hf (scoreKey a.score)
        have hmem : a ∈ (b :: t2).filter (fun s => decide (scoreKey s.score = scoreKey a.score)) := by
          rw [← h1]
          exact List.mem_filter_of_mem (List.mem_cons_self a t1) (by simp)
        exact (List.mem_filter.mp hmem).1
      have hmem_b : b ∈ a :: t1 := by
        have h1 := hf (scoreKey b.score)
        have hmem : b ∈ (a :: t1).filter (fun s => decide (scoreKey s.score = scoreKey b.score)) := by
          rw [h1]
          exact List.mem_filter_of_mem (List.mem_cons_self b t2) (by simp)
        exact (List.mem_filter.mp hmem).1
      have hkey : scoreKey a.score = scoreKey b.score := by
        rcases List.mem_cons.mp hmem_a with h | h
        · rw [h]
        · rcases List.mem_cons.mp hmem_b with h' | h'
          · rw [h']
          · exact le_antisymm (List.rel_of_sorted_cons hs2 a h) (List.rel_of_sorted_cons hs1 b h')
      have hab : a = b := by
        have h1 := hf (scoreKey a.score)
        rw [List.filter_cons, List.filter_cons] at h1
        rw [if_pos (by simp), if_pos (by simp [← hkey])] at h1
        exact (List.cons.injEq _ _ _ _ ▸ h1).1
      subst hab
      have htails : ∀ v : Rat, t1.filter (fun s => decide (scoreKey s.score = v)) =
          t2.filter (fun s => decide (scoreKey s.score = v)) := by
        intro v
        have h1 := hf v
        rw [List.filter_cons, List.filter_cons] at h1
        by_cases hv : decide (scoreKey a.score = v) = true
        · rw [if_pos hv, if_pos hv] at h1
          exact (List.cons.injEq _ _ _ _ ▸ h1).2
        · rw [if_neg hv, if_neg hv] at h1
          exact h1
      rw [ih t2 hs1.of_cons hs2.of_cons htails]

/-- C3.  Rank/filter postcondition: on any scored batch (any catalog, any mix
of call outcomes) with numeric scores, `recommend_speakers` returns exactly
the entries whose score key is at or above the threshold (inclusive), in an
order that is non-increasing in score, and entries with equal scores keep
their original catalog order (stable sort). -/
theorem rank_filter_postcondition (user_bio : String) (speakers : List Speaker)
    (oracle : Nat → ApiOutcome) (t : Rat)
    (hnum : ∀ s ∈ scoreAll user_bio speakers oracle, isNumLike s.score = true) :
    recommend_speakers user_bio speakers oracle t =
      .ok (rankedPure t (scoreAll user_bio speakers oracle)) ∧
    (rankedPure t (scoreAll user_bio speakers oracle)).Perm
      ((scoreAll user_bio speakers oracle).filter fun s => decide (t ≤ scoreKey s.score)) ∧
    (rankedPure t (scoreAll user_bio speakers oracle)).Sorted scoreDescLE ∧
    (∀ v : Rat,
      (rankedPure t (scoreAll user_bio speakers oracle)).filter
        (fun s => decide (scoreKey s.score = v)) =
      ((scoreAll user_bio speakers oracle).filter fun s => decide (t ≤ scoreKey s.score)).filter
        (fun s => decide (scoreKey s.score = v))) :=
  ⟨rank_eq_rankedPure t _ hnum, List.perm_insertionSort scoreDescLE _,
   List.sorted_insertionSort scoreDescLE _, fun v => sortByScoreDesc_filter_fiber _ v⟩

/-- The spec's scenario oracle: item 0 scores 9, item 1 hits a provider
failure, item 2 scores 7. -/
def scenarioOracle : Nat → ApiOutcome := fun i =>
  if i = 0 then .reply reply9 else if i = 1 then .raise "connection reset" else .reply goodReply

/-- Witness for C3 on the spec's three-speaker scenario at threshold 6. -/
theorem rank_filter_postcondition_witness :
    recommend_speakers bio0 [spA, spB, spC] scenarioOracle 6 =
      .ok (rankedPure 6 (scoreAll bio0 [spA, spB, spC] scenarioOracle)) :=
  (rank_filter_postcondition bio0 [spA, spB, spC] scenarioOracle 6 (by decide)).1

/-! ### C9: independence from completion order -/

/-- The fan-out result is a function of the per-item results only. -/
theorem scoreAll_congr (bio bio2 : String) (speakers : List Speaker)
    (oracle oracle2 : Nat → ApiOutcome)
    (h : ∀ i sp, speakers[i]? = some sp →
      score_speaker bio sp (oracle i) = score_speaker bio2 sp (oracle2 i)) :
    scoreAll bio speakers oracle = scoreAll bio2 speakers oracle2 := by
  induction speakers generalizing oracle oracle2 with
  | nil => rfl
  | cons a rest ih =>
    simp only [scoreAll]
    rw [h 0 a (by simp), ih (fun j => oracle (j + 1)) (fun j => oracle2 (j + 1))
      fun i sp hi => h (i + 1) sp (by simpa using hi)]

/-- Replacing the (uniquely named) entry at one catalog position and then
discarding it from the ranked output leaves exactly the ranking of the other
entries: the pure rank of the batch without that entry. -/
theorem rankedPure_drop (t : Rat) (A B : List ScoredMatch) (x : ScoredMatch) (nm : String)
    (hx : x.name = nm) (hA : ∀ y ∈ A ++ B, y.name ≠ nm) :
    (rankedPure t (A ++ x :: B)).filter (fun s => decide (s.name ≠ nm)) =
      rankedPure t (A ++ B) := by
  have hQx : decide (x.name ≠ nm) = false := by simp [hx]
  apply sorted_eq_of_fiber_eq
  · exact List.Sorted.filter _ (List.sorted_insertionSort scoreDescLE _)
  · exact List.sorted_insertionSort scoreDescLE _
  · intro v
    simp only [rankedPure]
    simp only [List.filter_filter]
    rw [sortByScoreDesc_filter_key _ _ v
      (fun s hs => of_decide_eq_true ((Bool.and_eq_true _ _).mp hs).1)]
    rw [sortByScoreDesc_filter_fiber]
    simp only [List.filter_filter]
    simp only [List.filter_append, List.filter_cons]
    rw [if_neg (by simp [hQx])]
    have hc : ∀ L : List ScoredMatch, (∀ y ∈ L, y.name ≠ nm) →
        L.filter (fun s => (decide (scoreKey s.score = v) && decide (s.name ≠ nm)) &&
          decide (t ≤ scoreKey s.score)) =
        L.filter (fun s => decide (scoreKey s.score = v) && decide (t ≤ scoreKey s.score)) := by
      intro L hL
      apply List.filter_congr
      intro y hy
      rw [decide_eq_true (hL y hy)]
      simp
    rw [hc A fun y hy => hA y (List.mem_append_left _ hy),
        hc B fun y hy => hA y (List.mem_append_right _ hy)]

/-- C9.  Completion-order independence: (1) the output of
`recommend_speakers` is a function only of the per-item scoring results taken
in catalog order (in the embedding, completion order of the concurrent calls
does not exist at all: `asyncio.gather` hands over results in task order); (2)
for a catalog where the k-th entry's name is unique, both with a normal
outcome and with a provider failure at k, discarding k's entry from the
ranked output yields exactly the ranking of the remaining entries, so a
failure on item k does not change the others' relative ranking. -/
theorem completion_order_independence :
    (∀ (bio bio2 : String) (speakers : List Speaker) (oracle oracle2 : Nat → ApiOutcome)
      (t : Rat),
      (∀ i sp, speakers[i]? = some sp →
        score_speaker bio sp (oracle i) = score_speaker bio2 sp (oracle2 i)) →
      recommend_speakers bio speakers oracle t = recommend_speakers bio2 speakers oracle2 t) ∧
    (∀ (t : Rat) (A B : List ScoredMatch) (bio m : String) (sp : Speaker) (o : ApiOutcome),
      (∀ y ∈ A ++ B, y.name ≠ sp.name) →
      (rankedPure t (A ++ score_speaker bio sp o :: B)).filter
        (fun s => decide (s.name ≠ sp.name)) = rankedPure t (A ++ B) ∧
      (rankedPure t (A ++ score_speaker bio sp (.raise m) :: B)).filter
        (fun s => decide (s.name ≠ sp.name)) = rankedPure t (A ++ B)) := by
  constructor
  · intro bio bio2 speakers oracle oracle2 t h
    unfold recommend_speakers
    rw [scoreAll_congr bio bio2 speakers oracle oracle2 h]
  · intro t A B bio m sp o hA
    exact ⟨rankedPure_drop t A B _ sp.name (score_speaker_fields bio sp o).1 hA,
      rankedPure_drop t A B _ sp.name (score_speaker_fields bio sp (.raise m)).1 hA⟩

/-- Witness for C9: two oracles that agree on the catalog positions give the
same output, and a provider failure at position 0 leaves the other entry's
ranking intact. -/
theorem completion_order_independence_witness :
    recommend_speakers bio0 [spA] (fun _ => .reply goodReply) 6 =
      recommend_speakers bio0 [spA]
        (fun i => if i = 0 then .reply goodReply else .raise "late") 6 ∧
    (rankedPure 6 ([] ++ score_speaker bio0 spA (.reply goodReply) ::
        [score_speaker bio0 spB (.reply reply9)])).filter
      (fun s => decide (s.name ≠ spA.name)) =
      rankedPure 6 ([] ++ [score_speaker bio0 spB (.reply reply9)]) ∧
    (rankedPure 6 ([] ++ score_speaker bio0 spA (.raise "boom") ::
        [score_speaker bio0 spB (.reply reply9)])).filter
      (fun s => decide (s.name ≠ spA.name)) =
      rankedPure 6 ([] ++ [score_speaker bio0 spB (.reply reply9)]) := by
  refine ⟨completion_order_independence.1 bio0 bio0 [spA] _ _ 6 ?_,
    completion_order_independence.2 6 [] [score_speaker bio0 spB (.reply reply9)]
      bio0 "boom" spA (.reply goodReply) (by decide)⟩
  intro i sp h
  cases i with
  | zero =>
    simp only [List.getElem?_cons_zero, Option.some.injEq] at h
    subst h
    rfl
  | succ n => simp at h

/-! ### C6: where the three-tier JSON extraction lives -/

/-- C6 counterexample.  The claim says the scoring path recovers a valid JSON
object wrapped in markdown fencing; in the code `score_speaker` applies
`json.loads` to the raw (stripped) reply with no extraction, so a fenced reply
falls into the error branch and scores 0 — while the three-tier extraction of
`extract_structured_data` would have recovered the object (score 7). -/
theorem scoring_path_no_extraction :
    (score_speaker bio0 spA (.reply fencedReply)).score = .num 0 ∧
    (score_speaker bio0 spA (.reply fencedReply)).score ≠ .num 7 ∧
    jsonLoads (extract_json fencedReply) =
      .ok (.obj [("score", .num 7), ("reasoning", .str "fits")]) := by
  refine ⟨rfl, ?_, rfl⟩
  intro h
  injection h with h2
  exact absurd h2 (by norm_num)

/-- C6 amended.  The three-tier extraction ((1) tagged fence interior, (2)
any fence interior, (3) verbatim, then strict parsing) is implemented by
`AnthropicClient.extract_structured_data`; the scoring path of
`score_speaker` instead applies strict `json.loads` to the raw stripped reply,
so fenced JSON is not recovered there.  Conjuncts: the scoring path turns any
parse failure into the error branch; the extraction path succeeds exactly on
what `extract_json` recovers; a text with no fence is used verbatim (tier 3);
and the two fence tiers recover concrete fenced objects. -/
theorem extraction_location :
    (∀ (bio : String) (sp : Speaker) (t e : String),
      jsonLoads (pyStrip t) = .error e →
      score_speaker bio sp (.reply t) = errorMatch sp e) ∧
    (∀ (t : String) (v : JsonVal), jsonLoads (extract_json t) = .ok v →
      extract_structured_data (.reply t) = .ok v) ∧
    (∀ t : String, strContains t "```" = false → extract_json t = t) ∧
    jsonLoads (extract_json fencedReply) =
      .ok (.obj [("score", .num 7), ("reasoning", .str "fits")]) ∧
    jsonLoads (extract_json untaggedFencedReply) =
      .ok (.obj [("score", .num 5), ("reasoning", .str "ok")]) := by
  refine ⟨fun bio sp t e h => score_speaker_parse_error bio sp t e h, ?_, ?_, rfl, rfl⟩
  · intro t v h
    simp [extract_structured_data, h]
  · intro t h
    have h1 : strContains t "```json" = false := by
      cases hc : strContains t "```json" with
      | false => rfl
      | true =>
        exfalso
        have hinf : List.IsInfix "```json".data t.data := of_decide_eq_true hc
        have hpre : List.IsPrefix "```".data "```json".data := ⟨"json".data, rfl⟩
        have h3 : strContains t "```" = true := decide_eq_true (hpre.isInfix.trans hinf)
        rw [h] at h3
        cases h3
    unfold extract_json
    rw [if_neg (by simp [h1]), if_neg (by simp [h])]

/-- Witness for C6 (amended): a concrete unparsable reply on the scoring
path, a concrete fenced reply through the extraction path, and a concrete
fence-free text used verbatim. -/
theorem extraction_location_witness :
    score_speaker bio0 spA (.reply "oops") = errorMatch spA "Expecting value" ∧
    extract_structured_data (.reply fencedReply) =
      .ok (.obj [("score", .num 7), ("reasoning", .str "fits")]) ∧
    extract_json "plain text" = "plain text" :=
  ⟨extraction_location.1 bio0 spA "oops" "Expecting value" rfl,
   extraction_location.2.1 fencedReply _ rfl,
   extraction_location.2.2.1 "plain text" rfl⟩

/-! ### C8: empty catalog and whole-request failure -/

/-- C8 counterexample.  With a non-empty catalog and a valid bio, a reply
that parses to an object whose `score` is a JSON string makes `score_speaker`
succeed (the per-item containment holds — the second conjunct shows the item
scored with the string value), yet the whole request then fails with HTTP 500
during the threshold comparison, after scoring began — contradicting "it
either returns a complete ranked set or fails before any scoring begins". -/
theorem request_fails_after_scoring :
    match_speakers [spA] (fun _ => .reply badTypeReply) ⟨bio0, 6⟩ =
      .error (.httpError 500 ("Error matching speakers: " ++ cmpTypeError)) ∧
    (score_speaker bio0 spA (.reply badTypeReply)).score = .str "high" :=
  ⟨rfl, rfl⟩

/-- Every entry of the ranked output comes from the scored batch. -/
theorem rankedPure_subset (t : Rat) (l : List ScoredMatch) : rankedPure t l ⊆ l := by
  intro m hm
  simp only [rankedPure, sortByScoreDesc] at hm
  have hm2 : m ∈ l.filter (fun s => decide (t ≤ scoreKey s.score)) :=
    (List.Perm.mem_iff (List.perm_insertionSort scoreDescLE _)).mp hm
  exact (List.mem_filter.mp hm2).1

/-- C8 amended.  An empty catalog fails with HTTP 500 "Speaker data not
loaded" for every request and every oracle, with no scoring; with a non-empty
catalog, a valid bio, and every per-item result passing the response model's
validation — a JSON-number score and a string rationale, which in particular
covers every provider failure and every unparsable reply, since those degrade
to score 0 with an error string — the request returns the complete ranked set
over all N items.  Two item shapes escape this guarantee and fail the whole
request with HTTP 500 after scoring: a non-numeric `score` (the
counterexample, a `TypeError` in the threshold comparison) and — as the last
two conjuncts show concretely — a numeric score with a non-string `reasoning`,
which passes scoring and filtering and then fails pydantic validation of
`MatchResponse`. -/
theorem no_partial_failure :
    (∀ (oracle : Nat → ApiOutcome) (req : MatchRequest),
      match_speakers [] oracle req = .error (.httpError 500 "Speaker data not loaded")) ∧
    (∀ (speakers : List Speaker) (oracle : Nat → ApiOutcome) (req : MatchRequest),
      speakers ≠ [] →
      ¬(req.user_bio = "" ∨ (pyStrip req.user_bio).length < 10) →
      (∀ s ∈ scoreAll req.user_bio speakers oracle, speakerMatchOk s = true) →
      match_speakers speakers oracle req =
        .ok { «matches» := rankedPure req.threshold (scoreAll req.user_bio speakers oracle),
              total_speakers := speakers.length,
              matches_found :=
                (rankedPure req.threshold (scoreAll req.user_bio speakers oracle)).length }) ∧
    match_speakers [spA] (fun _ => .reply dictReasoningReply) ⟨bio0, 6⟩ =
      .error (.httpError 500 ("Error matching speakers: " ++ pydanticValidationError)) ∧
    (score_speaker bio0 spA (.reply dictReasoningReply)).score = .num 7 := by
  refine ⟨fun oracle req => rfl, ?_, rfl, rfl⟩
  intro speakers oracle req hne hbio hok
  have hnum : ∀ s ∈ scoreAll req.user_bio speakers oracle, isNumLike s.score = true := by
    intro s hs
    obtain ⟨hf, -⟩ := (Bool.and_eq_true _ _).mp (hok s hs)
    cases hv : s.score with
    | num q => rfl
    | bool c => rw [hv] at hf; simp [pydanticFloatOk] at hf
    | null => rw [hv] at hf; simp [pydanticFloatOk] at hf
    | str s2 => rw [hv] at hf; simp [pydanticFloatOk] at hf
    | arr es => rw [hv] at hf; simp [pydanticFloatOk] at hf
    | obj fs => rw [hv] at hf; simp [pydanticFloatOk] at hf
  cases speakers with
  | nil => exact absurd rfl hne
  | cons a rest =>
    have hrec : recommend_speakers req.user_bio (a :: rest) oracle req.threshold =
        .ok (rankedPure req.threshold (scoreAll req.user_bio (a :: rest) oracle)) :=
      rank_eq_rankedPure _ _ hnum
    have hall : (rankedPure req.threshold (scoreAll req.user_bio (a :: rest) oracle)).all
        speakerMatchOk = true := by
      rw [List.all_eq_true]
      intro m hm
      exact hok m (rankedPure_subset _ _ hm)
    simp only [match_speakers]
    rw [if_neg hbio, hrec]
    simp [hall]

/-- Witness for C8 (amended): the empty catalog rejects before scoring, and a
one-speaker catalog under the scenario oracle (numeric score, string
rationale) returns the complete ranked set. -/
theorem no_partial_failure_witness :
    match_speakers [] (fun _ => .raise "down") ⟨bio0, 6⟩ =
      .error (.httpError 500 "Speaker data not loaded") ∧
    match_speakers [spA] scenarioOracle ⟨bio0, 6⟩ =
      .ok { «matches» := rankedPure 6 (scoreAll bio0 [spA] scenarioOracle),
            total_speakers := [spA].length,
            matches_found := (rankedPure 6 (scoreAll bio0 [spA] scenarioOracle)).length } :=
  ⟨no_partial_failure.1 (fun _ => .raise "down") ⟨bio0, 6⟩,
   no_partial_failure.2.1 [spA] scenarioOracle ⟨bio0, 6⟩ (List.cons_ne_nil spA [])
     (by decide) (by decide)⟩

end ConferenceScraper
